import Mathlib

/-!
Shallow embedding of the ChainSense-AI authentication core:
the zustand session store (`useAuthStore`) and the axios HTTP client
interceptors (bearer-token injection and 401 refresh-and-retry).
-/

namespace ChainSense

/-- User record held by the session store (interface `User`). -/
structure User where
  id : String
  email : String
  username : String
  fullName : String
  role : String
deriving Repr, DecidableEq

/-- Partial user record, the argument of `updateUser` (TypeScript `Partial<User>`):
each field is optional. -/
structure UserPatch where
  id : Option String := none
  email : Option String := none
  username : Option String := none
  fullName : Option String := none
  role : Option String := none
deriving Repr, DecidableEq

/-- Object-spread merge `{ ...state.user, ...userData }`: a field given in the
patch overrides the corresponding field of the user, an absent field keeps it. -/
def mergeUser (u : User) (p : UserPatch) : User :=
  { id := p.id.getD u.id
    email := p.email.getD u.email
    username := p.username.getD u.username
    fullName := p.fullName.getD u.fullName
    role := p.role.getD u.role }

/-- Data fields of the session store (`AuthState` without the function members):
`user`, `accessToken`, `refreshToken`, `isAuthenticated`. Nullable
TypeScript values become `Option`. -/
structure AuthState where
  user : Option User
  accessToken : Option String
  refreshToken : Option String
  isAuthenticated : Bool
deriving Repr, DecidableEq

/-- Initial store state: `user: null, accessToken: null, refreshToken: null,
isAuthenticated: false`. -/
def initialState : AuthState :=
  { user := none, accessToken := none, refreshToken := none, isAuthenticated := false }

/-- Store operation `login(user, accessToken, refreshToken)`: sets all four fields,
with `isAuthenticated: true`. -/
def login (u : User) (accessToken refreshToken : String) : AuthState :=
  { user := some u
    accessToken := some accessToken
    refreshToken := some refreshToken
    isAuthenticated := true }

/-- Store operation `logout()`: resets all four fields in one `set` call. -/
def logout (_s : AuthState) : AuthState :=
  { user := none, accessToken := none, refreshToken := none, isAuthenticated := false }

/-- Store operation `updateUser(userData)`: `user: state.user ? { ...state.user,
...userData } : null`; only the `user` field is written. -/
def updateUser (s : AuthState) (p : UserPatch) : AuthState :=
  { s with
    user := match s.user with
            | some u => some (mergeUser u p)
            | none => none }

/-- The interceptor's refresh-success call
`login(useAuthStore.getState().user!, access_token, refresh_token)`:
at runtime the non-null assertion `user!` passes the current (possibly null)
user through, and both tokens are replaced. -/
def refreshLogin (s : AuthState) (access refresh : String) : AuthState :=
  { user := s.user
    accessToken := some access
    refreshToken := some refresh
    isAuthenticated := true }

/-- JavaScript truthiness of a nullable string: `null` and the empty string
are falsy, every other string is truthy. -/
def truthyOpt : Option String → Bool
  | none => false
  | some t => t ≠ ""

/-- Outbound request config: the `Authorization` header slot and the mutable
one-shot marker `_retry` set by the response interceptor. -/
structure Request where
  authHeader : Option String
  retryFlag : Bool
deriving Repr, DecidableEq

/-- Request interceptor: `if (accessToken) config.headers.Authorization =
Bearer accessToken`; otherwise the config passes through unmodified. -/
def requestInterceptor (s : AuthState) (req : Request) : Request :=
  if truthyOpt s.accessToken then
    { req with authHeader := some ("Bearer " ++ s.accessToken.getD "") }
  else req

/-- Successful HTTP response (opaque body). -/
structure Response where
  status : Nat
  body : String
deriving Repr, DecidableEq

/-- What the transport yields for one attempt: a success, an HTTP error
carrying a status (axios rejection with `error.response.status`), or a
transport failure with no response at all (`error.response` undefined). -/
inductive TransportResult where
  | ok (resp : Response)
  | httpErr (status : Nat)
  | netErr
deriving Repr, DecidableEq

/-- Axios error object as the interceptor sees it: `error.response?.status`
(`none` when no response was received) and `error.config`. -/
structure HttpError where
  status : Option Nat
  config : Request
deriving Repr, DecidableEq

/-- What the caller of `api(...)` receives: a fulfilled response or a
rejected error. -/
inductive Outcome where
  | ok (resp : Response)
  | err (e : HttpError)
deriving Repr, DecidableEq

/-- Environment: the behaviour of the collaborators outside the client core.
`respond n r` is what the transport yields for attempt number `n` sending
request `r`; `refresh` is the outcome of `POST /auth/refresh`
(`some (access_token, refresh_token)` on success, `none` when the refresh
call itself fails). -/
structure Env where
  respond : Nat → Request → TransportResult
  refresh : Option (String × String)

/-- Observable effects of the client core, in order: requests handed to the
transport and calls to the refresh endpoint (carrying the refresh token sent). -/
inductive Event where
  | send (req : Request)
  | refreshCall (token : String)
deriving Repr, DecidableEq

/-- Turn one transport result into what the interceptor chain hands the
caller when no retry happens: a success passes through, an error is rejected
with its status and the request as its `config`. -/
def outcomeOf (tr : TransportResult) (req : Request) : Outcome :=
  match tr with
  | .ok resp => .ok resp
  | .httpErr st => .err { status := some st, config := req }
  | .netErr => .err { status := none, config := req }

/-- One pass through `api(req)`: request interceptor, transport, response
interceptor. On a 401 with `_retry` unset the interceptor marks the request,
and with a truthy refresh token calls the refresh endpoint: on success it
runs the store `login` with the current user and the new tokens, rewrites the
`Authorization` header to the new access token, and re-issues the request
through `api` — the recursive call, abstracted here as `redo`, which re-runs
the request interceptor. On refresh failure it calls `logout()` and rejects
the original error; with no truthy refresh token it calls `logout()` and
rejects the original error. Every other error is rejected unchanged. -/
def apiPass (env : Env) (attempt : Nat) (s : AuthState) (req0 : Request)
    (redo : AuthState → Request → Outcome × AuthState × List Event) :
    Outcome × AuthState × List Event :=
  let req := requestInterceptor s req0
  match env.respond attempt req with
  | .ok resp => (.ok resp, s, [.send req])
  | .netErr => (.err { status := none, config := req }, s, [.send req])
  | .httpErr st =>
    if st = 401 ∧ req.retryFlag = false then
      let req1 : Request := { req with retryFlag := true }
      if truthyOpt s.refreshToken then
        match env.refresh with
        | some (access, refresh) =>
          let s1 := refreshLogin s access refresh
          let req2 : Request := { req1 with authHeader := some ("Bearer " ++ access) }
          let rec2 := redo s1 req2
          (rec2.1, rec2.2.1, .send req :: .refreshCall (s.refreshToken.getD "") :: rec2.2.2)
        | none =>
          (.err { status := some st, config := req1 }, logout s,
            [.send req, .refreshCall (s.refreshToken.getD "")])
      else
        (.err { status := some st, config := req1 }, logout s, [.send req])
    else
      (.err { status := some st, config := req }, s, [.send req])

/-- Iterated passes: the re-issued request of pass `n` is processed by pass
`n + 1`. `fuel` bounds the depth; the `_retry` marker makes depth 2
sufficient, since a marked request never re-enters the refresh branch. -/
def apiCallGo : Nat → Env → Nat → AuthState → Request → Outcome × AuthState × List Event
  | 0, _, _, s, req0 => (.err { status := none, config := req0 }, s, [])
  | fuel + 1, env, attempt, s, req0 =>
    apiPass env attempt s req0 (apiCallGo fuel env (attempt + 1))

/-- Top-level client call on a fresh dispatch: fuel 2 covers the single
permitted retry. -/
def apiCall (env : Env) (s : AuthState) (req : Request) : Outcome × AuthState × List Event :=
  apiCallGo 2 env 0 s req

/-- Count of refresh-endpoint calls in an event trace. -/
def countRefresh (evs : List Event) : Nat :=
  evs.countP (fun e => match e with | .refreshCall _ => true | _ => false)

/-- Count of transport sends in an event trace. -/
def countSend (evs : List Event) : Nat :=
  evs.countP (fun e => match e with | .send _ => true | _ => false)

/-- Session-store operations reachable through the public surface: `login`,
`logout`, `updateUser`, and the interceptor's refresh-success `login` call. -/
inductive Op where
  | login (u : User) (access refresh : String)
  | logout
  | updateUser (p : UserPatch)
  | refreshLogin (access refresh : String)
deriving Repr, DecidableEq

/-- Apply one operation to the store state. -/
def applyOp (s : AuthState) : Op → AuthState
  | .login u a r => login u a r
  | .logout => logout s
  | .updateUser p => updateUser s p
  | .refreshLogin a r => refreshLogin s a r

/-- Run a sequence of operations from a state. -/
def runOps (s : AuthState) : List Op → AuthState
  | [] => s
  | op :: rest => runOps (applyOp s op) rest

/-- A trace is guarded when every `refreshLogin` fires in a state whose
refresh token is truthy — the condition under which the interceptor reaches
its refresh-success `login` call (`if (refreshToken) { ... }`). -/
def opsGuarded (s : AuthState) : List Op → Bool
  | [] => true
  | op :: rest =>
    (match op with
     | .refreshLogin _ _ => truthyOpt s.refreshToken
     | _ => true) && opsGuarded (applyOp s op) rest

/-- Token pair installed by one operation, given the pair standing before it:
`login` and `refreshLogin` install their arguments, `logout` clears,
`updateUser` keeps what stood. -/
def tokStep (acc : Option (String × String)) : Op → Option (String × String)
  | .login _ a r => some (a, r)
  | .refreshLogin a r => some (a, r)
  | .logout => none
  | .updateUser _ => acc

/-- Token pair installed by the last `login`/`refreshLogin` of the trace not
followed by a `logout`, starting from `acc`. -/
def lastTokensFrom (acc : Option (String × String)) : List Op → Option (String × String)
  | [] => acc
  | op :: rest => lastTokensFrom (tokStep acc op) rest

/-- Token pair installed by the last `login`/`refreshLogin` of the trace not
followed by a `logout` (none when no such operation exists). -/
def lastTokens (ops : List Op) : Option (String × String) :=
  lastTokensFrom none ops

/-- Relation the session invariant maintains between the state and the
token pair installed by the last authentication event: with no such event the
store is exactly the empty state; with pair `(a, r)` the store is
authenticated, holds exactly those tokens, and holds a user. -/
def Good (s : AuthState) : Option (String × String) → Prop
  | none => s = initialState
  | some (a, r) =>
    s.isAuthenticated = true ∧ s.accessToken = some a ∧
      s.refreshToken = some r ∧ s.user.isSome = true

theorem good_step (s : AuthState) (acc : Option (String × String)) (op : Op)
    (hg : (match op with
           | .refreshLogin _ _ => truthyOpt s.refreshToken
           | _ => true) = true)
    (h : Good s acc) : Good (applyOp s op) (tokStep acc op) := by
  cases op with
  | login u a r => simp [Good, applyOp, login, tokStep]
  | logout => simp [Good, applyOp, logout, tokStep, initialState]
  | updateUser p =>
    cases acc with
    | none =>
      simp only [Good] at h
      subst h
      simp [Good, applyOp, updateUser, tokStep, initialState]
    | some pr =>
      obtain ⟨a, r⟩ := pr
      obtain ⟨h1, h2, h3, h4⟩ := h
      rw [Option.isSome_iff_exists] at h4
      obtain ⟨u, hu⟩ := h4
      simp [Good, applyOp, updateUser, tokStep, h1, h2, h3, hu]
  | refreshLogin a r =>
    cases acc with
    | none =>
      simp only [Good] at h
      subst h
      simp [initialState, truthyOpt] at hg
    | some pr =>
      obtain ⟨a0, r0⟩ := pr
      obtain ⟨h1, h2, h3, h4⟩ := h
      simp [Good, applyOp, refreshLogin, tokStep, h4]

theorem good_run (ops : List Op) : ∀ (s : AuthState) (acc : Option (String × String)),
    Good s acc → opsGuarded s ops = true →
    Good (runOps s ops) (lastTokensFrom acc ops) := by
  induction ops with
  | nil => intro s acc h _; exact h
  | cons op rest ih =>
    intro s acc h hg
    simp only [opsGuarded, Bool.and_eq_true] at hg
    exact ih (applyOp s op) (tokStep acc op) (good_step s acc op hg.1 h) hg.2

theorem requestInterceptor_retryFlag (s : AuthState) (req : Request) :
    (requestInterceptor s req).retryFlag = req.retryFlag := by
  unfold requestInterceptor
  split <;> rfl

theorem apiCall_eq (env : Env) (s : AuthState) (req : Request) :
    apiCall env s req = apiPass env 0 s req (apiCallGo 1 env 1) := rfl

theorem apiCallGo_one (env : Env) (n : Nat) (s : AuthState) (req : Request) :
    apiCallGo 1 env n s req = apiPass env n s req (apiCallGo 0 env (n + 1)) := rfl

theorem apiPass_ok (env : Env) (n : Nat) (s : AuthState) (req0 : Request)
    (k : AuthState → Request → Outcome × AuthState × List Event) (resp : Response)
    (henv : env.respond n (requestInterceptor s req0) = .ok resp) :
    apiPass env n s req0 k = (.ok resp, s, [.send (requestInterceptor s req0)]) := by
  simp only [apiPass, henv]

theorem apiPass_netErr (env : Env) (n : Nat) (s : AuthState) (req0 : Request)
    (k : AuthState → Request → Outcome × AuthState × List Event)
    (henv : env.respond n (requestInterceptor s req0) = .netErr) :
    apiPass env n s req0 k =
      (.err { status := none, config := requestInterceptor s req0 }, s,
        [.send (requestInterceptor s req0)]) := by
  simp only [apiPass, henv]

theorem apiPass_reject (env : Env) (n : Nat) (s : AuthState) (req0 : Request)
    (k : AuthState → Request → Outcome × AuthState × List Event) (st : Nat)
    (henv : env.respond n (requestInterceptor s req0) = .httpErr st)
    (hcond : ¬(st = 401 ∧ (requestInterceptor s req0).retryFlag = false)) :
    apiPass env n s req0 k =
      (.err { status := some st, config := requestInterceptor s req0 }, s,
        [.send (requestInterceptor s req0)]) := by
  simp only [apiPass, henv]
  rw [if_neg hcond]

theorem apiPass_noToken (env : Env) (n : Nat) (s : AuthState) (req0 : Request)
    (k : AuthState → Request → Outcome × AuthState × List Event)
    (henv : env.respond n (requestInterceptor s req0) = .httpErr 401)
    (hflag : (requestInterceptor s req0).retryFlag = false)
    (htok : truthyOpt s.refreshToken = false) :
    apiPass env n s req0 k =
      (.err { status := some 401,
              config := { requestInterceptor s req0 with retryFlag := true } },
        logout s, [.send (requestInterceptor s req0)]) := by
  simp only [apiPass, henv]
  rw [if_pos ⟨trivial, hflag⟩, htok]
  simp

theorem apiPass_refreshFail (env : Env) (n : Nat) (s : AuthState) (req0 : Request)
    (k : AuthState → Request → Outcome × AuthState × List Event)
    (henv : env.respond n (requestInterceptor s req0) = .httpErr 401)
    (hflag : (requestInterceptor s req0).retryFlag = false)
    (htok : truthyOpt s.refreshToken = true)
    (hre : env.refresh = none) :
    apiPass env n s req0 k =
      (.err { status := some 401,
              config := { requestInterceptor s req0 with retryFlag := true } },
        logout s,
        [.send (requestInterceptor s req0), .refreshCall (s.refreshToken.getD "")]) := by
  simp only [apiPass, henv, hre]
  rw [if_pos ⟨trivial, hflag⟩, if_pos htok]

theorem apiPass_refreshOk (env : Env) (n : Nat) (s : AuthState) (req0 : Request)
    (k : AuthState → Request → Outcome × AuthState × List Event) (access refresh : String)
    (henv : env.respond n (requestInterceptor s req0) = .httpErr 401)
    (hflag : (requestInterceptor s req0).retryFlag = false)
    (htok : truthyOpt s.refreshToken = true)
    (hre : env.refresh = some (access, refresh)) :
    apiPass env n s req0 k =
      ((k (refreshLogin s access refresh)
          { authHeader := some ("Bearer " ++ access), retryFlag := true }).1,
        (k (refreshLogin s access refresh)
          { authHeader := some ("Bearer " ++ access), retryFlag := true }).2.1,
        .send (requestInterceptor s req0) :: .refreshCall (s.refreshToken.getD "") ::
          (k (refreshLogin s access refresh)
            { authHeader := some ("Bearer " ++ access), retryFlag := true }).2.2) := by
  simp only [apiPass, henv, hre]
  rw [if_pos ⟨trivial, hflag⟩, if_pos htok]

theorem apiPass_flagged (env : Env) (n : Nat) (s : AuthState) (req0 : Request)
    (k : AuthState → Request → Outcome × AuthState × List Event)
    (hr : req0.retryFlag = true) :
    apiPass env n s req0 k =
      (outcomeOf (env.respond n (requestInterceptor s req0)) (requestInterceptor s req0), s,
        [.send (requestInterceptor s req0)]) := by
  have hflag : (requestInterceptor s req0).retryFlag = true :=
    (requestInterceptor_retryFlag s req0).trans hr
  cases henv : env.respond n (requestInterceptor s req0) with
  | ok resp => rw [apiPass_ok env n s req0 k _ henv]; rfl
  | netErr => rw [apiPass_netErr env n s req0 k henv]; rfl
  | httpErr st =>
    rw [apiPass_reject env n s req0 k st henv (by simp [hflag])]
    rfl

/-- Demonstration user for concrete runs. -/
def demoUser : User :=
  { id := "u-1", email := "alice@example.com", username := "alice"
    fullName := "Alice Archer", role := "manager" }

/-- Demonstration operation trace: a login, a refresh-success login, then a
partial user update. -/
def demoOps : List Op :=
  [Op.login demoUser "T1" "R1", Op.refreshLogin "T2" "R2",
   Op.updateUser { role := some "admin" }]

/-- C1: starting from the empty session, along any guarded sequence of
`login`, `logout`, `updateUser` and refresh-success `login` operations,
`isAuthenticated` is true exactly when a last `login`/`refreshLogin` stands
unerased by a `logout`; in that case `accessToken` and `refreshToken` are the
pair that operation installed and a user is present; and `logout` clears all
four fields in one transition. -/
theorem session_store_invariant (ops : List Op)
    (hg : opsGuarded initialState ops = true) :
    ((runOps initialState ops).isAuthenticated = true ↔ (lastTokens ops).isSome = true) ∧
    (∀ a r : String, lastTokens ops = some (a, r) →
      (runOps initialState ops).accessToken = some a ∧
      (runOps initialState ops).refreshToken = some r ∧
      (runOps initialState ops).user.isSome = true) ∧
    (∀ s : AuthState, applyOp s Op.logout = initialState) := by
  have h : Good (runOps initialState ops) (lastTokens ops) :=
    good_run ops initialState none rfl hg
  refine ⟨?_, ?_, fun s => rfl⟩
  · cases hlt : lastTokens ops with
    | none =>
      rw [hlt] at h
      simp only [Good] at h
      rw [h]
      simp [initialState]
    | some pr =>
      obtain ⟨a, r⟩ := pr
      rw [hlt] at h
      simp [h.1]
  · intro a r hlt
    rw [hlt] at h
    exact ⟨h.2.1, h.2.2.1, h.2.2.2⟩

/-- Witness for C1 on the concrete trace `demoOps`. -/
theorem session_store_invariant_witness :
    (runOps initialState demoOps).isAuthenticated = true :=
  (session_store_invariant demoOps (by decide)).1.mpr (by decide)

/-- C2: a fresh request triggers at most one refresh-endpoint call and at most
two transport sends in every environment; and when every attempt yields 401,
the caller receives a 401 error whose config carries the set retry marker
(the error of the retried — not re-refreshed — attempt when a retry happened). -/
theorem retry_at_most_once (env : Env) (s : AuthState) (req : Request)
    (hr : req.retryFlag = false) :
    (countRefresh (apiCall env s req).2.2 ≤ 1 ∧ countSend (apiCall env s req).2.2 ≤ 2) ∧
    ((∀ (n : Nat) (r : Request), env.respond n r = TransportResult.httpErr 401) →
      ∃ cfg : Request, cfg.retryFlag = true ∧
        (apiCall env s req).1 = Outcome.err { status := some 401, config := cfg }) := by
  have hflag : (requestInterceptor s req).retryFlag = false :=
    (requestInterceptor_retryFlag s req).trans hr
  rw [apiCall_eq]
  cases henv : env.respond 0 (requestInterceptor s req) with
  | ok resp =>
    rw [apiPass_ok env 0 s req _ resp henv]
    refine ⟨by simp [countRefresh, countSend], fun hall => ?_⟩
    exact absurd (henv.symm.trans (hall 0 _)) (by simp)
  | netErr =>
    rw [apiPass_netErr env 0 s req _ henv]
    refine ⟨by simp [countRefresh, countSend], fun hall => ?_⟩
    exact absurd (henv.symm.trans (hall 0 _)) (by simp)
  | httpErr st =>
    by_cases h401 : st = 401
    · subst h401
      cases htr : truthyOpt s.refreshToken with
      | false =>
        rw [apiPass_noToken env 0 s req _ henv hflag htr]
        exact ⟨by simp [countRefresh, countSend],
          fun _ => ⟨{ requestInterceptor s req with retryFlag := true }, rfl, rfl⟩⟩
      | true =>
        cases hre : env.refresh with
        | none =>
          rw [apiPass_refreshFail env 0 s req _ henv hflag htr hre]
          exact ⟨by simp [countRefresh, countSend],
            fun _ => ⟨{ requestInterceptor s req with retryFlag := true }, rfl, rfl⟩⟩
        | some pr =>
          obtain ⟨access, refresh⟩ := pr
          rw [apiPass_refreshOk env 0 s req _ access refresh henv hflag htr hre]
          rw [apiCallGo_one, apiPass_flagged env 1 (refreshLogin s access refresh)
            { authHeader := some ("Bearer " ++ access), retryFlag := true } _ rfl]
          refine ⟨by simp [countRefresh, countSend], fun hall => ?_⟩
          refine ⟨requestInterceptor (refreshLogin s access refresh)
            { authHeader := some ("Bearer " ++ access), retryFlag := true },
            (requestInterceptor_retryFlag _ _).trans rfl, ?_⟩
          simp [hall, outcomeOf]
    · rw [apiPass_reject env 0 s req _ st henv (fun h => h401 h.1)]
      refine ⟨by simp [countRefresh, countSend], fun hall => ?_⟩
      exact absurd (henv.symm.trans (hall 0 _)) (by simp [h401])

/-- Environment in which every attempt yields 401 and the refresh endpoint
succeeds with a fresh token pair. -/
def always401Env : Env :=
  { respond := fun _ _ => .httpErr 401, refresh := some ("T2", "R2") }

/-- Witness for C2: concrete double-401 run with at most one refresh call. -/
theorem retry_at_most_once_witness :
    countRefresh (apiCall always401Env (login demoUser "T1" "R1")
      { authHeader := none, retryFlag := false }).2.2 ≤ 1 :=
  (retry_at_most_once always401Env (login demoUser "T1" "R1")
    { authHeader := none, retryFlag := false } rfl).1.1

/-- Session of the refresh-and-retry scenario: tokens `T1`/`R1` with user `u`. -/
def scenarioState (u : User) : AuthState :=
  { user := some u, accessToken := some "T1", refreshToken := some "R1",
    isAuthenticated := true }

/-- A fresh request: no header attached yet, retry marker unset. -/
def freshReq : Request := { authHeader := none, retryFlag := false }

/-- The retried request of the scenario: bearer header `T2`, retry marker set. -/
def retriedReqT2 : Request := { authHeader := some "Bearer T2", retryFlag := true }

/-- C3: with session tokens `T1`/`R1`, a 401 on the first attempt, and a
refresh endpoint answering `T2`/`R2`, the session afterwards holds `T2`/`R2`
with the user preserved, the retried request carries `Bearer T2`, and the
retried request's own transport result is what the caller receives. -/
theorem refresh_retry_scenario (env : Env) (u : User)
    (h401 : ∀ r : Request, env.respond 0 r = TransportResult.httpErr 401)
    (hre : env.refresh = some ("T2", "R2")) :
    (apiCall env (scenarioState u) freshReq).2.1 =
      { user := some u, accessToken := some "T2", refreshToken := some "R2",
        isAuthenticated := true } ∧
    (apiCall env (scenarioState u) freshReq).2.2 =
      [Event.send { authHeader := some "Bearer T1", retryFlag := false },
        Event.refreshCall "R1", Event.send retriedReqT2] ∧
    (apiCall env (scenarioState u) freshReq).1 =
      outcomeOf (env.respond 1 retriedReqT2) retriedReqT2 := by
  have hflag : (requestInterceptor (scenarioState u) freshReq).retryFlag = false :=
    (requestInterceptor_retryFlag _ _).trans rfl
  have htok : truthyOpt (scenarioState u).refreshToken = true := by
    simp [scenarioState, truthyOpt]
  have hri2 : requestInterceptor (refreshLogin (scenarioState u) "T2" "R2")
      { authHeader := some ("Bearer " ++ "T2"), retryFlag := true } = retriedReqT2 := by
    simp [requestInterceptor, refreshLogin, scenarioState, truthyOpt, retriedReqT2]
  have hri1 : requestInterceptor (scenarioState u) freshReq =
      { authHeader := some "Bearer T1", retryFlag := false } := by
    simp [requestInterceptor, scenarioState, truthyOpt, freshReq]
  rw [apiCall_eq, apiPass_refreshOk env 0 (scenarioState u) freshReq _ "T2" "R2"
    (h401 _) hflag htok hre]
  rw [apiCallGo_one, apiPass_flagged env 1 (refreshLogin (scenarioState u) "T2" "R2")
    { authHeader := some ("Bearer " ++ "T2"), retryFlag := true } _ rfl]
  rw [hri2, hri1]
  refine ⟨by simp [refreshLogin, scenarioState], ?_, rfl⟩
  simp [scenarioState]

/-- Environment in which every attempt yields 401 and the refresh endpoint
call itself fails. -/
def refreshFailEnv : Env :=
  { respond := fun _ _ => .httpErr 401, refresh := none }

/-- C4: first attempt 401, retry marker unset, refresh token truthy, refresh
endpoint fails: `logout()` clears the session, the caller receives the
original request's 401 error (never a refresh-call error — no such error
object even reaches the caller), one refresh call was attempted, and no
retry is sent. -/
theorem refresh_failure_logout (env : Env) (s : AuthState) (req : Request)
    (hr : req.retryFlag = false)
    (h401 : env.respond 0 (requestInterceptor s req) = TransportResult.httpErr 401)
    (htok : truthyOpt s.refreshToken = true)
    (hre : env.refresh = none) :
    (apiCall env s req).1 =
      Outcome.err { status := some 401,
                    config := { (requestInterceptor s req) with retryFlag := true } } ∧
    (apiCall env s req).2.1 = initialState ∧
    (apiCall env s req).2.2 =
      [Event.send (requestInterceptor s req),
        Event.refreshCall (s.refreshToken.getD "")] := by
  have hflag : (requestInterceptor s req).retryFlag = false :=
    (requestInterceptor_retryFlag s req).trans hr
  rw [apiCall_eq, apiPass_refreshFail env 0 s req _ h401 hflag htok hre]
  exact ⟨rfl, rfl, rfl⟩

/-- Witness for C4: concrete failed-refresh run ending in the cleared session. -/
theorem refresh_failure_logout_witness :
    (apiCall refreshFailEnv (login demoUser "T1" "R1") freshReq).2.1 = initialState :=
  (refresh_failure_logout refreshFailEnv (login demoUser "T1" "R1") freshReq
    rfl rfl (by decide) rfl).2.1

/-- C5: a 401 on an unretried request while the session holds no refresh
token: no refresh-endpoint call occurs (the event trace holds only the one
send), `logout()` clears the session, and the original 401 error is
surfaced. -/
theorem no_refresh_token_logout (env : Env) (s : AuthState) (req : Request)
    (hr : req.retryFlag = false)
    (h401 : env.respond 0 (requestInterceptor s req) = TransportResult.httpErr 401)
    (htok : s.refreshToken = none) :
    (apiCall env s req).1 =
      Outcome.err { status := some 401,
                    config := { (requestInterceptor s req) with retryFlag := true } } ∧
    (apiCall env s req).2.1 = initialState ∧
    (apiCall env s req).2.2 = [Event.send (requestInterceptor s req)] := by
  have hflag : (requestInterceptor s req).retryFlag = false :=
    (requestInterceptor_retryFlag s req).trans hr
  have ht : truthyOpt s.refreshToken = false := by rw [htok]; rfl
  rw [apiCall_eq, apiPass_noToken env 0 s req _ h401 hflag ht]
  exact ⟨rfl, rfl, rfl⟩

/-- Witness for C5: a 401 against the empty session performs no refresh call. -/
theorem no_refresh_token_logout_witness :
    (apiCall refreshFailEnv initialState freshReq).2.2 = [Event.send freshReq] :=
  (no_refresh_token_logout refreshFailEnv initialState freshReq rfl rfl rfl).2.2

/-- Environment in which every attempt fails with HTTP status 500. -/
def err500Env : Env :=
  { respond := fun _ _ => .httpErr 500, refresh := none }

/-- C8: an error response that is not a 401 — any other HTTP status, or a
transport failure with no response at all — is rejected to the caller
unchanged (its status and config as produced by the failed attempt, the retry
marker still unset), with no retry send, no refresh call, and the session
state untouched. -/
theorem non401_propagates (env : Env) (s : AuthState) (req : Request)
    (hfail : ∀ resp : Response,
      env.respond 0 (requestInterceptor s req) ≠ TransportResult.ok resp)
    (hne : ∀ st : Nat,
      env.respond 0 (requestInterceptor s req) = TransportResult.httpErr st → st ≠ 401) :
    (apiCall env s req).1 =
      outcomeOf (env.respond 0 (requestInterceptor s req)) (requestInterceptor s req) ∧
    (apiCall env s req).2.1 = s ∧
    (apiCall env s req).2.2 = [Event.send (requestInterceptor s req)] := by
  rw [apiCall_eq]
  cases henv : env.respond 0 (requestInterceptor s req) with
  | ok resp => exact absurd henv (hfail resp)
  | netErr =>
    rw [apiPass_netErr env 0 s req _ henv]
    exact ⟨rfl, rfl, rfl⟩
  | httpErr st =>
    rw [apiPass_reject env 0 s req _ st henv (fun h => hne st henv h.1)]
    exact ⟨rfl, rfl, rfl⟩

/-- Witness for C8: a 500 leaves the logged-in session untouched. -/
theorem non401_propagates_witness :
    (apiCall err500Env (login demoUser "T1" "R1") freshReq).2.1 =
      login demoUser "T1" "R1" :=
  (non401_propagates err500Env (login demoUser "T1" "R1") freshReq
    (fun resp h => nomatch h) (fun st h => by cases h; decide)).2.1

/-- Witness for C3 with the demonstration user and a retry that succeeds. -/
theorem refresh_retry_scenario_witness :
    (apiCall { respond := fun n _ => if n = 0 then .httpErr 401
                 else .ok { status := 200, body := "ship" },
               refresh := some ("T2", "R2") }
      (scenarioState demoUser) freshReq).2.1 =
      { user := some demoUser, accessToken := some "T2", refreshToken := some "R2",
        isAuthenticated := true } :=
  (refresh_retry_scenario
    { respond := fun n _ => if n = 0 then .httpErr 401
        else .ok { status := 200, body := "ship" },
      refresh := some ("T2", "R2") }
    demoUser (fun _ => rfl) rfl).1

/-- Counterexample for C6 as stated: after `login(demoUser, "", "")` the
session's access token is non-null (`some ""`), yet the request interceptor
attaches no authorization header — the attachment guard is JavaScript
truthiness, not a null check. -/
theorem bearer_attach_counterexample :
    (login demoUser "" "").accessToken ≠ none ∧
    requestInterceptor (login demoUser "" "") freshReq = freshReq ∧
    (requestInterceptor (login demoUser "" "") freshReq).authHeader = none := by
  refine ⟨by simp [login], rfl, rfl⟩

/-- C6 (amended): if the access token is non-null and non-empty, the request
interceptor attaches it as `Bearer <token>`; with a null or empty access
token the request passes through unmodified. -/
theorem bearer_attach (s : AuthState) (req : Request) :
    (∀ t : String, s.accessToken = some t → t ≠ "" →
      requestInterceptor s req = { req with authHeader := some ("Bearer " ++ t) }) ∧
    ((s.accessToken = none ∨ s.accessToken = some "") →
      requestInterceptor s req = req) := by
  constructor
  · intro t ht hne
    simp [requestInterceptor, truthyOpt, ht, hne]
  · rintro (h | h) <;> simp [requestInterceptor, truthyOpt, h]

/-- Witness for C6 (amended) on a concrete logged-in session. -/
theorem bearer_attach_witness :
    requestInterceptor (login demoUser "T1" "R1") freshReq =
      { freshReq with authHeader := some ("Bearer " ++ "T1") } :=
  (bearer_attach (login demoUser "T1" "R1") freshReq).1 "T1" rfl (by decide)

/-- C7: `updateUser` on a null-user session changes nothing; on a session
with a user it merges only the given keys into the user — an absent patch key
keeps the prior value, a present one overrides it — while the tokens and the
authenticated flag keep their prior values. -/
theorem updateUser_frame (s : AuthState) (p : UserPatch) :
    (s.user = none → updateUser s p = s) ∧
    (∀ u : User, s.user = some u →
      (updateUser s p).user = some (mergeUser u p) ∧
      (updateUser s p).accessToken = s.accessToken ∧
      (updateUser s p).refreshToken = s.refreshToken ∧
      (updateUser s p).isAuthenticated = s.isAuthenticated ∧
      (p.id = none → (mergeUser u p).id = u.id) ∧
      (∀ v, p.id = some v → (mergeUser u p).id = v) ∧
      (p.email = none → (mergeUser u p).email = u.email) ∧
      (∀ v, p.email = some v → (mergeUser u p).email = v) ∧
      (p.username = none → (mergeUser u p).username = u.username) ∧
      (∀ v, p.username = some v → (mergeUser u p).username = v) ∧
      (p.fullName = none → (mergeUser u p).fullName = u.fullName) ∧
      (∀ v, p.fullName = some v → (mergeUser u p).fullName = v) ∧
      (p.role = none → (mergeUser u p).role = u.role) ∧
      (∀ v, p.role = some v → (mergeUser u p).role = v)) := by
  obtain ⟨su, sa, sr, si⟩ := s
  constructor
  · intro h
    simp only at h
    subst h
    simp [updateUser]
  · intro u hu
    simp only at hu
    subst hu
    refine ⟨by simp [updateUser], rfl, rfl, rfl, ?_, ?_, ?_, ?_, ?_, ?_, ?_, ?_, ?_, ?_⟩ <;>
      first
        | (intro h; simp [mergeUser, h])
        | (intro v h; simp [mergeUser, h])

/-- Witness for C7: merging a role patch into the demonstration user. -/
theorem updateUser_frame_witness :
    (updateUser (login demoUser "T1" "R1") { role := some "admin" }).accessToken =
      (login demoUser "T1" "R1").accessToken :=
  ((updateUser_frame (login demoUser "T1" "R1") { role := some "admin" }).2
    demoUser rfl).2.1

/-- Full zustand store object: the four persisted data fields together with
its function-valued members (`login`, `logout`, `updateUser` closures),
modelled as an opaque extra component of type `ops`. -/
structure StoreState (ops : Type) extends AuthState where
  opMembers : ops

/-- The `partialize` option of the persist middleware: the record written to
durable storage under the key `chainsense-auth`, holding exactly `user`,
`accessToken`, `refreshToken` and `isAuthenticated`. -/
def partialize {ops : Type} (st : StoreState ops) : AuthState :=
  { user := st.user
    accessToken := st.accessToken
    refreshToken := st.refreshToken
    isAuthenticated := st.isAuthenticated }

/-- C9: the persisted record is exactly the four-field session projection of
the store: it never depends on the function members, and two store states
persist to the same record exactly when their four session fields agree. -/
theorem partialize_exact (ops : Type) :
    (∀ st : StoreState ops, partialize st = st.toAuthState) ∧
    (∀ st st2 : StoreState ops,
      partialize st = partialize st2 ↔ st.toAuthState = st2.toAuthState) := by
  constructor
  · intro st
    rfl
  · intro st st2
    constructor
    · intro h
      have h1 : partialize st = st.toAuthState := rfl
      have h2 : partialize st2 = st2.toAuthState := rfl
      rw [← h1, ← h2, h]
    · intro h
      show st.toAuthState = st2.toAuthState
      exact h

/-- C10: an empty-string access token is non-null but falsy, so the request
interceptor attaches nothing and the request goes out without a bearer
credential. -/
theorem empty_token_no_header (s : AuthState) (req : Request)
    (h : s.accessToken = some "") :
    requestInterceptor s req = req ∧
    (requestInterceptor s freshReq).authHeader = none := by
  have hall : ∀ r : Request, requestInterceptor s r = r := by
    intro r
    simp [requestInterceptor, truthyOpt, h]
  exact ⟨hall req, by rw [hall freshReq]; rfl⟩

/-- Witness for C10 after a login that stored an empty access token. -/
theorem empty_token_no_header_witness :
    requestInterceptor (login demoUser "" "R1") freshReq = freshReq :=
  (empty_token_no_header (login demoUser "" "R1") freshReq rfl).1

end ChainSense
